import Mathlib

/-!
Verification of the Surf Ceylon suitability scoring and ranking core.

The embedding models the two JavaScript scorers of the repository:

* the advanced Model-2 scorer `calculateSuitability(predictions, preferences,
  spotRegion)` of the ML-gateway server, together with the ranking pipeline
  `finalRankedSpots` (map over spots attaching a suitability, then a stable
  descending sort by suitability);
* the simple backend scorer `calculateSuitability(forecast, skillLevel)` of
  the mock API gateway (namespace `Server` below).

JavaScript numbers on the inputs actually exercised are modelled by `ℚ`;
the ambient current calendar month (`new Date().getMonth() + 1`) is passed
explicitly; enum-like string fields stay `String`, exactly as the code
compares them.  A wave-height preference field coming in from the query
string is modelled by the value `parseFloat` gives on it: `none` stands for
a missing field or a string on which `parseFloat` returns `NaN`, `some q`
for a numeric result `q`.
-/

/-- Tide record of a forecast: a status string (High or Low in the data)
and a free-text description of the next transition. -/
structure Tide where
  status : String
  next : String
deriving DecidableEq, Repr

/-- Forecast record handed to the Model-2 scorer: destructured in the source
as waveHeight, wavePeriod, windSpeed, windDirection, tide. -/
structure Forecast where
  waveHeight : ℚ
  wavePeriod : ℚ
  windSpeed : ℚ
  windDirection : ℚ
  tide : Tide
deriving DecidableEq, Repr

/-- User preferences as the Model-2 scorer reads them: skillLevel, boardType
and tidePreference are compared as strings; the wave-height bounds are kept
as the result `parseFloat` produced on the raw field (`none` models NaN from
a missing or non-numeric field). -/
structure Preferences where
  skillLevel : String
  boardType : String
  tidePreference : String
  minWaveHeight : Option ℚ
  maxWaveHeight : Option ℚ
deriving DecidableEq, Repr

/-- JavaScript `parseFloat(x) || d`: the parse result is replaced by the
default when it is falsy, that is when it is `NaN` (modelled `none`) or `0`. -/
def parseFloatOr (v : Option ℚ) (d : ℚ) : ℚ :=
  match v with
  | none => d
  | some q => if q = 0 then d else q

/-- Source line 50: `spotRegion === 'East Coast' && windDirection > 240 &&
windDirection < 300`. -/
def isOffshoreForEastCoast (spotRegion : String) (windDirection : ℚ) : Prop :=
  spotRegion = "East Coast" ∧ windDirection > 240 ∧ windDirection < 300

/-- Source line 51: `spotRegion === 'South Coast' && windDirection > 330 ||
windDirection < 30`.  In JavaScript `&&` binds tighter than `||`, so the
condition parses as the disjunction written here: the second disjunct
`windDirection < 30` does not test the region at all. -/
def isOffshoreForSouthCoast (spotRegion : String) (windDirection : ℚ) : Prop :=
  (spotRegion = "South Coast" ∧ windDirection > 330) ∨ windDirection < 30

instance (r : String) (w : ℚ) : Decidable (isOffshoreForEastCoast r w) := by
  unfold isOffshoreForEastCoast
  infer_instance

instance (r : String) (w : ℚ) : Decidable (isOffshoreForSouthCoast r w) := by
  unfold isOffshoreForSouthCoast
  infer_instance

/-- East-coast season test of source line 63:
`currentMonth >= 4 && currentMonth <= 10`. -/
def isEastCoastSeason (currentMonth : ℕ) : Prop :=
  4 ≤ currentMonth ∧ currentMonth ≤ 10

instance (m : ℕ) : Decidable (isEastCoastSeason m) := by
  unfold isEastCoastSeason
  infer_instance

/-- Rule block of source lines 25-33: wave height versus skill level. -/
def applySkillRule (skillLevel : String) (waveHeight : ℚ) (score : ℚ) : ℚ :=
  if skillLevel = "Beginner" then
    if waveHeight > 3/2 then score - 60
    else if waveHeight > 1 then score - 30
    else score
  else if skillLevel = "Intermediate" then
    let score := if waveHeight < 4/5 then score - 20 else score
    if waveHeight > 5/2 then score - 40 else score
  else if skillLevel = "Advanced" then
    if waveHeight < 3/2 then score - 30 else score
  else score

/-- Rule block of source lines 36-38: wave height versus the explicit
preferred range. -/
def applyRangeRule (waveHeight minWaveHeight maxWaveHeight score : ℚ) : ℚ :=
  if waveHeight < minWaveHeight ∨ waveHeight > maxWaveHeight then score - 25
  else score

/-- Rule block of source lines 41-42: wave period versus board type. -/
def applyPeriodRule (boardType : String) (wavePeriod : ℚ) (score : ℚ) : ℚ :=
  let score := if boardType = "Shortboard" ∧ wavePeriod < 9 then score - 20 else score
  if boardType ≠ "Shortboard" ∧ wavePeriod > 12 then score - 15 else score

/-- Rule block of source lines 45-46: wind speed. -/
def applyWindSpeedRule (windSpeed : ℚ) (score : ℚ) : ℚ :=
  if windSpeed > 25 then score - 50
  else if windSpeed > 15 then score - 25
  else score

/-- Rule block of source lines 50-54: offshore wind direction check. -/
def applyWindDirectionRule (spotRegion : String) (windDirection : ℚ) (score : ℚ) : ℚ :=
  if ¬ isOffshoreForEastCoast spotRegion windDirection ∧
      ¬ isOffshoreForSouthCoast spotRegion windDirection then score - 30
  else score

/-- Rule block of source lines 57-59: tide preference. -/
def applyTideRule (tidePreference tideStatus : String) (score : ℚ) : ℚ :=
  if tidePreference ≠ "Any" ∧ tideStatus ≠ tidePreference then score - 15
  else score

/-- Rule block of source lines 62-66: monsoon season penalty. -/
def applySeasonRule (spotRegion : String) (currentMonth : ℕ) (score : ℚ) : ℚ :=
  let score := if spotRegion = "East Coast" ∧ ¬ isEastCoastSeason currentMonth
    then score - 60 else score
  if spotRegion = "South Coast" ∧ isEastCoastSeason currentMonth
    then score - 60 else score

/-- Cumulative score of the Model-2 scorer before the final clamp: base 100
with the rule blocks applied in source order. -/
def rawScore (predictions : Forecast) (preferences : Preferences)
    (spotRegion : String) (currentMonth : ℕ) : ℚ :=
  let minWaveHeight := parseFloatOr preferences.minWaveHeight (1/2)
  let maxWaveHeight := parseFloatOr preferences.maxWaveHeight (5/2)
  let score : ℚ := 100
  let score := applySkillRule preferences.skillLevel predictions.waveHeight score
  let score := applyRangeRule predictions.waveHeight minWaveHeight maxWaveHeight score
  let score := applyPeriodRule preferences.boardType predictions.wavePeriod score
  let score := applyWindSpeedRule predictions.windSpeed score
  let score := applyWindDirectionRule spotRegion predictions.windDirection score
  let score := applyTideRule preferences.tidePreference predictions.tide.status score
  applySeasonRule spotRegion currentMonth score

/-- Model-2 scorer `calculateSuitability(predictions, preferences,
spotRegion)` of the ML-gateway server: the cumulative score clamped to
[0, 100] at the end, `Math.max(0, Math.min(100, score))`. -/
def calculateSuitability (predictions : Forecast) (preferences : Preferences)
    (spotRegion : String) (currentMonth : ℕ) : ℚ :=
  max 0 (min 100 (rawScore predictions preferences spotRegion currentMonth))

namespace Server

/-- Forecast record of the mock API gateway (`generateForecast`): a wave
height, a wind record with numeric speed and a direction label, and a tide
record; its scorer reads only the wave height. -/
structure ServerForecast where
  waveHeight : ℚ
  windSpeed : ℚ
  windDirection : String
  tide : Tide
deriving DecidableEq, Repr

/-- Simple backend scorer `calculateSuitability(forecast, skillLevel)` of
the mock API gateway: wave-height rules only (thresholds 1.5/1.0 for
Beginner, 1.0 and 2.5 for Intermediate, 1.8 for Advanced), then the clamp
`Math.max(0, Math.min(100, score))`. -/
def calculateSuitability (forecast : ServerForecast) (skillLevel : String) : ℚ :=
  let waveHeight := forecast.waveHeight
  let score : ℚ := 100
  let score :=
    if skillLevel = "Beginner" then
      if waveHeight > 3/2 then score - 60
      else if waveHeight > 1 then score - 30
      else score
    else if skillLevel = "Intermediate" then
      let score := if waveHeight < 1 then score - 20 else score
      if waveHeight > 5/2 then score - 40 else score
    else if skillLevel = "Advanced" then
      if waveHeight < 9/5 then score - 30 else score
    else score
  max 0 (min 100 score)

end Server

/-- A spot as delivered by Model 1 to the ranking endpoint: static registry
fields plus the attached forecast. -/
structure SpotWithForecast where
  id : String
  name : String
  region : String
  coords : ℚ × ℚ
  forecast : Forecast
deriving DecidableEq, Repr

/-- A ranked spot: the spread `\x7b ...spot, suitability: suitabilityScore \x7d`
of the source, keeping every spot field and attaching the computed
suitability. -/
structure RankedSpot where
  id : String
  name : String
  region : String
  coords : ℚ × ℚ
  forecast : Forecast
  suitability : ℚ
deriving DecidableEq, Repr

/-- The map step of `finalRankedSpots`: attach
`calculateSuitability(spot.forecast, userPreferences, spot.region)` to the
spot, leaving every other field unchanged. -/
def withSuitability (preferences : Preferences) (currentMonth : ℕ)
    (spot : SpotWithForecast) : RankedSpot :=
  ⟨spot.id, spot.name, spot.region, spot.coords, spot.forecast,
    calculateSuitability spot.forecast preferences spot.region currentMonth⟩

/-- Order used by the sort comparator `(a, b) => b.suitability -
a.suitability`: `a` may stay before `b` exactly when the comparator is
nonpositive. -/
def suitGE (a b : RankedSpot) : Prop :=
  b.suitability ≤ a.suitability

instance : DecidableRel suitGE := fun a b =>
  inferInstanceAs (Decidable (b.suitability ≤ a.suitability))

instance : IsTotal RankedSpot suitGE :=
  ⟨fun a b => le_total b.suitability a.suitability⟩

instance : IsTrans RankedSpot suitGE :=
  ⟨fun _ _ _ h1 h2 => le_trans h2 h1⟩

/-- The ranking pipeline of the `/api/spots` endpoint: map each spot to a
ranked spot, then `finalRankedSpots.sort((a, b) => b.suitability -
a.suitability)`.  `Array.prototype.sort` is a stable sort by the ECMAScript
specification, so the sort is embedded as the stable `List.insertionSort`
over `suitGE`, which keeps the input order of elements the comparator
ties. -/
def rank (preferences : Preferences) (currentMonth : ℕ)
    (spots : List SpotWithForecast) : List RankedSpot :=
  List.insertionSort suitGE (spots.map (withSuitability preferences currentMonth))

/-! Decomposition of the sequential deduction chain into the sum of the
amounts each rule block subtracts. -/

/-- Amount the skill rule block subtracts. -/
def skillDeduction (skillLevel : String) (waveHeight : ℚ) : ℚ :=
  if skillLevel = "Beginner" then
    if waveHeight > 3/2 then 60 else if waveHeight > 1 then 30 else 0
  else if skillLevel = "Intermediate" then
    (if waveHeight < 4/5 then 20 else 0) + (if waveHeight > 5/2 then 40 else 0)
  else if skillLevel = "Advanced" then
    if waveHeight < 3/2 then 30 else 0
  else 0

/-- Amount the explicit-range rule block subtracts. -/
def rangeDeduction (waveHeight minWaveHeight maxWaveHeight : ℚ) : ℚ :=
  if waveHeight < minWaveHeight ∨ waveHeight > maxWaveHeight then 25 else 0

/-- Amount the wave-period rule block subtracts. -/
def periodDeduction (boardType : String) (wavePeriod : ℚ) : ℚ :=
  (if boardType = "Shortboard" ∧ wavePeriod < 9 then 20 else 0) +
    (if boardType ≠ "Shortboard" ∧ wavePeriod > 12 then 15 else 0)

/-- Amount the wind-speed rule block subtracts. -/
def windDeduction (windSpeed : ℚ) : ℚ :=
  if windSpeed > 25 then 50 else if windSpeed > 15 then 25 else 0

/-- Amount the wind-direction rule block subtracts. -/
def directionDeduction (spotRegion : String) (windDirection : ℚ) : ℚ :=
  if ¬ isOffshoreForEastCoast spotRegion windDirection ∧
      ¬ isOffshoreForSouthCoast spotRegion windDirection then 30 else 0

/-- Amount the tide rule block subtracts. -/
def tideDeduction (tidePreference tideStatus : String) : ℚ :=
  if tidePreference ≠ "Any" ∧ tideStatus ≠ tidePreference then 15 else 0

/-- Amount the season rule block subtracts. -/
def seasonDeduction (spotRegion : String) (currentMonth : ℕ) : ℚ :=
  (if spotRegion = "East Coast" ∧ ¬ isEastCoastSeason currentMonth then 60 else 0) +
    (if spotRegion = "South Coast" ∧ isEastCoastSeason currentMonth then 60 else 0)

/-! Concrete inputs used by the counterexamples and witnesses. -/

/-- Tide record used by the concrete test inputs. -/
def tideHigh : Tide := ⟨"High", "Low in 3h"⟩

/-- Concrete forecast with otherwise perfect conditions for an Advanced
surfer and windDirection 10 degrees. -/
def fC1 : Forecast := ⟨2, 10, 10, 10, tideHigh⟩

/-- Concrete preferences: Advanced, Longboard, any tide, default bounds
supplied explicitly. -/
def pC1 : Preferences := ⟨"Advanced", "Longboard", "Any", some (1/2), some (5/2)⟩

/-- Concrete forecast with wave height 0.3 and otherwise perfect conditions
for a Beginner on the East Coast. -/
def fC3 : Forecast := ⟨3/10, 10, 10, 270, tideHigh⟩

/-- Preferences carrying a negative minimum wave height. -/
def pC3neg : Preferences := ⟨"Beginner", "Longboard", "Any", some (-1), some (5/2)⟩

/-- The same preferences with the minimum replaced by the default 0.5. -/
def pC3def : Preferences := ⟨"Beginner", "Longboard", "Any", some (1/2), some (5/2)⟩

/-- Concrete scenario-B inputs: Advanced, tide preference Low against a
High tide, wind 30 from 270 degrees on the East Coast in June. -/
def fC6 : Forecast := ⟨2, 10, 30, 270, tideHigh⟩

/-- Scenario-B preferences. -/
def pC6 : Preferences := ⟨"Advanced", "Shortboard", "Low", some (1/2), some (5/2)⟩

/-- Server forecast with wave height 0.9. -/
def sfC5a : Server.ServerForecast := ⟨9/10, 5, "Offshore", tideHigh⟩

/-- Server forecast with wave height 1.6. -/
def sfC5b : Server.ServerForecast := ⟨8/5, 5, "Offshore", tideHigh⟩

theorem applySkillRule_eq (sl : String) (wh s : ℚ) :
    applySkillRule sl wh s = s - skillDeduction sl wh := by
  unfold applySkillRule skillDeduction
  split_ifs <;> ring

theorem applyRangeRule_eq (wh lo hi s : ℚ) :
    applyRangeRule wh lo hi s = s - rangeDeduction wh lo hi := by
  unfold applyRangeRule rangeDeduction
  split_ifs <;> ring

theorem applyPeriodRule_eq (bt : String) (wp s : ℚ) :
    applyPeriodRule bt wp s = s - periodDeduction bt wp := by
  unfold applyPeriodRule periodDeduction
  split_ifs <;> ring

theorem applyWindSpeedRule_eq (ws s : ℚ) :
    applyWindSpeedRule ws s = s - windDeduction ws := by
  unfold applyWindSpeedRule windDeduction
  split_ifs <;> ring

theorem applyWindDirectionRule_eq (r : String) (wd s : ℚ) :
    applyWindDirectionRule r wd s = s - directionDeduction r wd := by
  unfold applyWindDirectionRule directionDeduction
  split_ifs <;> ring

theorem applyTideRule_eq (tp ts : String) (s : ℚ) :
    applyTideRule tp ts s = s - tideDeduction tp ts := by
  unfold applyTideRule tideDeduction
  split_ifs <;> ring

theorem applySeasonRule_eq (r : String) (m : ℕ) (s : ℚ) :
    applySeasonRule r m s = s - seasonDeduction r m := by
  unfold applySeasonRule seasonDeduction
  split_ifs <;> ring

/-- The cumulative score equals the base 100 minus the sum of the amounts
the seven rule blocks subtract. -/
theorem rawScore_eq (f : Forecast) (p : Preferences) (r : String) (m : ℕ) :
    rawScore f p r m =
      100 - skillDeduction p.skillLevel f.waveHeight
        - rangeDeduction f.waveHeight (parseFloatOr p.minWaveHeight (1/2))
            (parseFloatOr p.maxWaveHeight (5/2))
        - periodDeduction p.boardType f.wavePeriod
        - windDeduction f.windSpeed
        - directionDeduction r f.windDirection
        - tideDeduction p.tidePreference f.tide.status
        - seasonDeduction r m := by
  unfold rawScore
  dsimp only
  rw [applySkillRule_eq, applyRangeRule_eq, applyPeriodRule_eq, applyWindSpeedRule_eq,
    applyWindDirectionRule_eq, applyTideRule_eq, applySeasonRule_eq]

/-! Claim theorems. -/

/-- C1: the claim states an East Coast spot with windDirection outside
(240, 300), for example windDirection = 10, always receives the -30
deduction.  The code disagrees: in source line 51 the JavaScript `&&` binds
tighter than `||`, so `isOffshoreForSouthCoast` holds for an East Coast
spot whenever windDirection < 30, the deduction is skipped, and a
windDirection of 10 with otherwise perfect conditions scores 100 instead of
the 70 the claim requires. -/
theorem C1_east_coast_wind10_escapes_deduction :
    ¬ isOffshoreForEastCoast "East Coast" 10 ∧
      isOffshoreForSouthCoast "East Coast" 10 ∧
      directionDeduction "East Coast" 10 = 0 ∧
      calculateSuitability fC1 pC1 "East Coast" 6 = 100 := by
  refine ⟨?_, ?_, ?_, ?_⟩
  · norm_num [isOffshoreForEastCoast]
  · norm_num [isOffshoreForSouthCoast]
  · norm_num [directionDeduction, isOffshoreForEastCoast, isOffshoreForSouthCoast]
  · simp only [calculateSuitability, rawScore_eq]
    norm_num [skillDeduction, rangeDeduction, periodDeduction, windDeduction,
      directionDeduction, tideDeduction, seasonDeduction, parseFloatOr,
      isOffshoreForEastCoast, isOffshoreForSouthCoast, isEastCoastSeason, fC1, pC1, tideHigh]
    simp +decide only []
    norm_num

/-- C2: for every forecast, preferences, region and month the score is the
raw cumulative score clamped once at the end as max(0, min(100, raw)), and
its value lies in [0, 100]. -/
theorem C2_score_clamped (f : Forecast) (p : Preferences) (r : String) (m : ℕ) :
    calculateSuitability f p r m = max 0 (min 100 (rawScore f p r m)) ∧
      0 ≤ calculateSuitability f p r m ∧ calculateSuitability f p r m ≤ 100 := by
  refine ⟨rfl, le_max_left 0 _, ?_⟩
  exact max_le (by norm_num) (min_le_left 100 _)

/-- C3 counterexample: the claim states a negative wave-height bound is
replaced by the default, but `parseFloat(x) || d` only replaces falsy
values (NaN and 0); a supplied minimum of -1 is kept, so with wave height
0.3 the score is 100 while the default minimum 0.5 gives 75. -/
theorem C3_negative_bound_kept :
    calculateSuitability fC3 pC3neg "East Coast" 6 = 100 ∧
      calculateSuitability fC3 pC3def "East Coast" 6 = 75 ∧
      calculateSuitability fC3 pC3neg "East Coast" 6 ≠
        calculateSuitability fC3 pC3def "East Coast" 6 := by
  have h1 : calculateSuitability fC3 pC3neg "East Coast" 6 = 100 := by
    simp only [calculateSuitability, rawScore_eq]
    norm_num [skillDeduction, rangeDeduction, periodDeduction, windDeduction,
      directionDeduction, tideDeduction, seasonDeduction, parseFloatOr,
      isOffshoreForEastCoast, isOffshoreForSouthCoast, isEastCoastSeason, fC3, pC3neg, tideHigh]
    simp +decide only []
    norm_num
  have h2 : calculateSuitability fC3 pC3def "East Coast" 6 = 75 := by
    simp only [calculateSuitability, rawScore_eq]
    norm_num [skillDeduction, rangeDeduction, periodDeduction, windDeduction,
      directionDeduction, tideDeduction, seasonDeduction, parseFloatOr,
      isOffshoreForEastCoast, isOffshoreForSouthCoast, isEastCoastSeason, fC3, pC3def, tideHigh]
    simp +decide only []
    norm_num
  refine ⟨h1, h2, ?_⟩
  rw [h1, h2]
  norm_num

/-- C3 amended: a missing or non-numeric bound, on which `parseFloat`
returns NaN, behaves exactly as the default 0.5 respectively 2.5, for every
forecast, region, month and remaining preference fields; the scorer is a
total function, so it never fails. -/
theorem C3_missing_or_nan_bounds_defaulted (f : Forecast) (r : String) (m : ℕ)
    (sk bt tp : String) (mn mx : Option ℚ) :
    calculateSuitability f ⟨sk, bt, tp, none, mx⟩ r m =
        calculateSuitability f ⟨sk, bt, tp, some (1/2), mx⟩ r m ∧
      calculateSuitability f ⟨sk, bt, tp, mn, none⟩ r m =
        calculateSuitability f ⟨sk, bt, tp, mn, some (5/2)⟩ r m := by
  constructor
  · simp only [calculateSuitability, rawScore_eq]
    norm_num [parseFloatOr]
  · simp only [calculateSuitability, rawScore_eq]
    norm_num [parseFloatOr]

/-! Stability of the descending sort, phrased through filters: restricting
the output to one suitability value reproduces the input restricted to that
value, in the input order. -/

theorem filter_suit_orderedInsert (v : ℚ) (x : RankedSpot) (l : List RankedSpot) :
    (List.orderedInsert suitGE x l).filter (fun s => s.suitability == v) =
      if x.suitability == v then
        x :: l.filter (fun s => s.suitability == v)
      else l.filter (fun s => s.suitability == v) := by
  induction l with
  | nil =>
    by_cases hx : x.suitability = v
    · simp [List.filter, hx]
    · have hx' : (x.suitability == v) = false := beq_eq_false_iff_ne.mpr hx
      simp [List.filter, hx, hx']
  | cons y ys ih =>
    by_cases hxy : suitGE x y
    · simp only [List.orderedInsert, if_pos hxy, List.filter_cons]
    · have hxy' : ¬ y.suitability ≤ x.suitability := hxy
      have hlt : x.suitability < y.suitability := not_le.mp hxy'
      by_cases hx : x.suitability = v
      · have hy : ¬ y.suitability = v := by
          rw [← hx]
          exact ne_of_gt hlt
        simp only [List.orderedInsert, if_neg hxy, List.filter_cons, ih]
        simp [hx, hy]
      · simp only [List.orderedInsert, if_neg hxy, List.filter_cons, ih]
        simp [hx]

theorem filter_suit_insertionSort (v : ℚ) (l : List RankedSpot) :
    (List.insertionSort suitGE l).filter (fun s => s.suitability == v) =
      l.filter (fun s => s.suitability == v) := by
  induction l with
  | nil => rfl
  | cons x xs ih =>
    rw [List.insertionSort, filter_suit_orderedInsert, List.filter_cons]
    by_cases hx : (x.suitability == v) = true
    · simp [hx, ih]
    · simp [hx, ih]

/-- C4: the ranking pipeline returns the spots sorted in descending order
of computed suitability (`suitGE` holds along the output), and the sort is
stable: for every suitability value, the output restricted to spots of that
value equals the scored input restricted to it, in the original input
order — so equal-score spots keep their relative input order. -/
theorem C4_rank_sorted_and_stable (p : Preferences) (m : ℕ) (l : List SpotWithForecast) :
    List.Sorted suitGE (rank p m l) ∧
      ∀ v : ℚ, (rank p m l).filter (fun s => s.suitability == v) =
        (l.map (withSuitability p m)).filter (fun s => s.suitability == v) :=
  ⟨List.sorted_insertionSort suitGE _, fun v => filter_suit_insertionSort v _⟩

/-- C5 counterexample: the claim says the canonical thresholds hold in
every scoring variant; the simple backend scorer instead deducts 20 for an
Intermediate surfer at wave height 0.9 (its threshold is 1.0, not 0.8) and
30 for an Advanced surfer at wave height 1.6 (its threshold is 1.8, not
1.5), where the canonical thresholds would deduct nothing and both scores
would be 100. -/
theorem C5_backend_thresholds_differ :
    Server.calculateSuitability sfC5a "Intermediate" = 80 ∧
      Server.calculateSuitability sfC5b "Advanced" = 70 := by
  constructor
  · simp only [Server.calculateSuitability, sfC5a]
    norm_num
    simp +decide only []
  · simp only [Server.calculateSuitability, sfC5b]
    norm_num
    simp +decide only []

/-- C5 amended: the advanced Model-2 scorer does use exactly the canonical
thresholds — its score is the clamp of 100 minus the rule deductions, and
the skill deduction is 20 for waveHeight < 0.8 plus 40 for waveHeight > 2.5
at Intermediate, and 30 for waveHeight < 1.5 at Advanced — while the simple
backend scorer uses 1.0 as the Intermediate small-wave threshold and 1.8 as
the Advanced threshold. -/
theorem C5_amended_thresholds :
    (∀ (f : Forecast) (p : Preferences) (r : String) (m : ℕ),
        calculateSuitability f p r m = max 0 (min 100
          (100 - skillDeduction p.skillLevel f.waveHeight
            - rangeDeduction f.waveHeight (parseFloatOr p.minWaveHeight (1/2))
                (parseFloatOr p.maxWaveHeight (5/2))
            - periodDeduction p.boardType f.wavePeriod
            - windDeduction f.windSpeed
            - directionDeduction r f.windDirection
            - tideDeduction p.tidePreference f.tide.status
            - seasonDeduction r m))) ∧
      (∀ wh : ℚ, skillDeduction "Intermediate" wh =
        (if wh < 4/5 then 20 else 0) + (if wh > 5/2 then 40 else 0)) ∧
      (∀ wh : ℚ, skillDeduction "Advanced" wh = if wh < 3/2 then 30 else 0) ∧
      (∀ f : Server.ServerForecast, Server.calculateSuitability f "Intermediate" =
        max 0 (min 100 (100 - (if f.waveHeight < 1 then 20 else 0)
          - (if f.waveHeight > 5/2 then 40 else 0)))) ∧
      (∀ f : Server.ServerForecast, Server.calculateSuitability f "Advanced" =
        max 0 (min 100 (100 - (if f.waveHeight < 9/5 then 30 else 0)))) := by
  refine ⟨?_, ?_, ?_, ?_, ?_⟩
  · intro f p r m
    simp only [calculateSuitability, rawScore_eq]
  · intro wh
    simp +decide [skillDeduction]
  · intro wh
    simp +decide [skillDeduction]
  · intro f
    simp only [Server.calculateSuitability]
    simp +decide only []
    split_ifs <;> first | contradiction | norm_num
  · intro f
    simp only [Server.calculateSuitability]
    simp +decide only []
    split_ifs <;> first | contradiction | norm_num

/-- C6: scenario B — an Advanced surfer, waveHeight 2.0, wavePeriod 10,
windSpeed 30, offshore wind for the spot under the code's check, a tide
status differing from a non-Any tide preference, the region in season, and
explicit default bounds 0.5 and 2.5, scores exactly 35: the only deductions
are 50 for wind speed and 15 for tide. -/
theorem C6_scenario_B (f : Forecast) (p : Preferences) (r : String) (m : ℕ)
    (hsk : p.skillLevel = "Advanced")
    (hmn : p.minWaveHeight = some (1/2)) (hmx : p.maxWaveHeight = some (5/2))
    (hwh : f.waveHeight = 2) (hwp : f.wavePeriod = 10) (hws : f.windSpeed = 30)
    (hoff : isOffshoreForEastCoast r f.windDirection ∨
      isOffshoreForSouthCoast r f.windDirection)
    (htp : p.tidePreference ≠ "Any") (htm : f.tide.status ≠ p.tidePreference)
    (hsE : ¬ (r = "East Coast" ∧ ¬ isEastCoastSeason m))
    (hsS : ¬ (r = "South Coast" ∧ isEastCoastSeason m)) :
    calculateSuitability f p r m = 35 := by
  have hdir : directionDeduction r f.windDirection = 0 := by
    rw [directionDeduction, if_neg]
    intro hc
    exact hoff.elim hc.1 hc.2
  have htide : tideDeduction p.tidePreference f.tide.status = 15 := by
    rw [tideDeduction, if_pos ⟨htp, htm⟩]
  have hseason : seasonDeduction r m = 0 := by
    rw [seasonDeduction, if_neg hsE, if_neg hsS]
    norm_num
  simp only [calculateSuitability, rawScore_eq, hsk, hmn, hmx, hwh, hwp, hws,
    hdir, htide, hseason]
  norm_num [skillDeduction, rangeDeduction, periodDeduction, windDeduction, parseFloatOr]
  simp +decide only []
  norm_num

/-- C6 witness: the scenario at concrete inputs — Advanced Shortboard
surfer preferring Low tide, East Coast spot in June, wind 30 from 270
degrees, High tide. -/
theorem C6_scenario_B_witness : calculateSuitability fC6 pC6 "East Coast" 6 = 35 :=
  C6_scenario_B fC6 pC6 "East Coast" 6 rfl rfl rfl rfl rfl rfl
    (Or.inl (by norm_num [isOffshoreForEastCoast, fC6]))
    (by decide) (by decide) (by decide) (by decide)

theorem windDeduction_mono {w1 w2 : ℚ} (h : w1 ≤ w2) :
    windDeduction w1 ≤ windDeduction w2 := by
  unfold windDeduction
  split_ifs <;> linarith

/-- C7: the score is monotonically non-increasing in windSpeed — holding
the forecast, preferences, region and month fixed, raising the wind speed
never raises the score. -/
theorem C7_windSpeed_antitone (f : Forecast) (p : Preferences) (r : String)
    (m : ℕ) (w1 w2 : ℚ) (h : w1 ≤ w2) :
    calculateSuitability { f with windSpeed := w2 } p r m ≤
      calculateSuitability { f with windSpeed := w1 } p r m := by
  simp only [calculateSuitability, rawScore_eq]
  have hd := windDeduction_mono h
  refine max_le_max (le_refl 0) (min_le_min (le_refl 100) ?_)
  dsimp only
  linarith

/-- C7 witness: raising the wind speed from 10 to 20 at the concrete
scenario inputs does not raise the score. -/
theorem C7_windSpeed_antitone_witness :
    (10 : ℚ) ≤ 20 ∧
      calculateSuitability { fC1 with windSpeed := 20 } pC1 "East Coast" 6 ≤
        calculateSuitability { fC1 with windSpeed := 10 } pC1 "East Coast" 6 :=
  ⟨by norm_num, C7_windSpeed_antitone fC1 pC1 "East Coast" 6 10 20 (by norm_num)⟩

/-- C8: ranking the empty list of spots yields the empty list for every
preferences value and month, with no error possible. -/
theorem C8_rank_empty (p : Preferences) (m : ℕ) : rank p m [] = [] := rfl

/-- C9: the simple backend scorer leaves the score at 100 for any skill
level outside Beginner, Intermediate and Advanced — the unrecognized value
falls through every branch and no deduction or error occurs. -/
theorem C9_unknown_skill_scores_100 (f : Server.ServerForecast) (sl : String)
    (h1 : sl ≠ "Beginner") (h2 : sl ≠ "Intermediate") (h3 : sl ≠ "Advanced") :
    Server.calculateSuitability f sl = 100 := by
  simp only [Server.calculateSuitability]
  rw [if_neg h1, if_neg h2, if_neg h3]
  norm_num

/-- C9 witness: the skill level Expert is none of the three recognized
values and scores 100 on a concrete forecast. -/
theorem C9_unknown_skill_witness :
    ("Expert" : String) ≠ "Beginner" ∧ ("Expert" : String) ≠ "Intermediate" ∧
      ("Expert" : String) ≠ "Advanced" ∧
      Server.calculateSuitability sfC5a "Expert" = 100 :=
  ⟨by decide, by decide, by decide,
    C9_unknown_skill_scores_100 sfC5a "Expert" (by decide) (by decide) (by decide)⟩

/-- C10: the ranked output is a permutation of the scored input — same
length — and scoring a spot only attaches the suitability, leaving id,
name, region, coordinates and forecast unchanged. -/
theorem C10_rank_is_permutation (p : Preferences) (m : ℕ) (l : List SpotWithForecast) :
    (rank p m l).Perm (l.map (withSuitability p m)) ∧
      (rank p m l).length = l.length ∧
      ∀ s : SpotWithForecast,
        (withSuitability p m s).id = s.id ∧
          (withSuitability p m s).name = s.name ∧
          (withSuitability p m s).region = s.region ∧
          (withSuitability p m s).coords = s.coords ∧
          (withSuitability p m s).forecast = s.forecast := by
  refine ⟨List.perm_insertionSort suitGE _, ?_, fun s => ⟨rfl, rfl, rfl, rfl, rfl⟩⟩
  rw [rank, (List.perm_insertionSort suitGE _).length_eq, List.length_map]
